import Mathlib

/-!
# Edge gateway service configuration: NAT / firewall rule rewriting

A shallow embedding of `edgegateway.go` (package `govcloudair`).  The embedding covers
the in-memory part of every operation, from the refreshed gateway document up to the
document that is handed to `xml.MarshalIndent`:

* `Refresh` (address parsing, request, decode);
* the uplink lookup and the two filter loops of `Remove1to1Mapping`;
* the NAT initialisation and the rule appends of `Create1to1Mapping`;
* the network resolution of `RequestPublicIP` and `RemovePublicIP`.

Go pointers that the source dereferences are `Option` values; dereferencing an absent
one is the fault `Fault.nilDeref`, and `log.Fatalf` is the fault `Fault.fatalExit`.
Strings are Go strings; slices are lists.
-/

set_option autoImplicit false
set_option linter.dupNamespace false
set_option linter.unnecessarySeqFocus false

namespace Govcloudair

/-- The two ways a run of the code stops without returning: a nil pointer dereference
(a Go run-time panic) and `log.Fatalf` (the process exits). -/
inductive Fault where
  | nilDeref
  | fatalExit
deriving DecidableEq, Repr

/-! ## Data model (`types/v56`) -/

/-- Modelled from the spec: the declaration of `types.Reference` is not among the
sources; the fields are the ones the source reads and writes (`HREF`, `Name`). -/
structure Reference where
  HREF : String := ""
  Name : String := ""
deriving DecidableEq, Repr

/-- Modelled from the spec: the declaration of `types.GatewayNatRule` is not among the
sources; the fields are the ones the source reads and writes.  `Interface` is a
pointer (`&types.Reference` at lines 223 and 239). -/
structure GatewayNatRule where
  Interface : Option Reference := none
  OriginalIP : String := ""
  OriginalPort : String := ""
  TranslatedIP : String := ""
  TranslatedPort : String := ""
  Protocol : String := ""
deriving DecidableEq, Repr

/-- Modelled from the spec: the declaration of `types.NatRule` is not among the
sources; the fields are the ones the source reads and writes.  `GatewayNatRule` is a
pointer (`&types.GatewayNatRule` at lines 222 and 238). -/
structure NatRule where
  Description : String := ""
  RuleType : String := ""
  IsEnabled : Bool := false
  GatewayNatRule : Option GatewayNatRule := none
deriving DecidableEq, Repr

/-- Modelled from the spec: the declaration of `types.FirewallRuleProtocols` is not
among the sources; `Any` is the field the source reads and writes. -/
structure FirewallRuleProtocols where
  Any : Bool := false
deriving DecidableEq, Repr

/-- Modelled from the spec: the declaration of `types.FirewallRule` is not among the
sources; the fields are the ones the source reads and writes.  `Protocols` is a
pointer (`&types.FirewallRuleProtocols` at lines 258 and 276). -/
structure FirewallRule where
  Description : String := ""
  IsEnabled : Bool := false
  Policy : String := ""
  Protocols : Option FirewallRuleProtocols := none
  DestinationPortRange : String := ""
  DestinationIP : String := ""
  SourcePortRange : String := ""
  SourceIP : String := ""
  EnableLogging : Bool := false
deriving DecidableEq, Repr

/-- Modelled from the spec: the declaration of `types.NatService` is not among the
sources; the fields are the ones the source copies (lines 79-82) and the rule slice. -/
structure NatService where
  IsEnabled : Bool := false
  NatType : String := ""
  Policy : String := ""
  ExternalIP : String := ""
  NatRule : List NatRule := []
deriving DecidableEq, Repr

/-- Modelled from the spec: the declaration of `types.FirewallService` is not among the
sources; the fields are the ones the source copies (lines 120-122) and the rule slice. -/
structure FirewallService where
  IsEnabled : Bool := false
  DefaultAction : String := ""
  LogDefaultAction : Bool := false
  FirewallRule : List FirewallRule := []
deriving DecidableEq, Repr

/-- Modelled from the spec: the declaration of `types.GatewayFeatures` is not among the
sources.  Both services are pointers: the source tests `NatService == nil` (line 213)
and assigns `&types.NatService` and `&types.FirewallService` values to them. -/
structure GatewayFeatures where
  NatService : Option NatService := none
  FirewallService : Option FirewallService := none
deriving DecidableEq, Repr

/-- Modelled from the spec: the declaration of `types.GatewayInterface` is not among the
sources; the fields are the ones the source reads.  `Network` is a pointer (it is
assigned to a `*types.Reference` variable that line 386 compares with `nil`). -/
structure GatewayInterface where
  Name : String := ""
  InterfaceType : String := ""
  Network : Option Reference := none
deriving DecidableEq, Repr

/-- Modelled from the spec: the declaration of `types2.Allocation` is not among the
sources; the fields are the ones written at lines 392-396. -/
structure Allocation where
  ExternalNetworkName : String := ""
  ExternalNetworkRef : String := ""
  NumberOfExternalIPAddressesToAllocate : String := ""
deriving DecidableEq, Repr

/-- Modelled from the spec: the declaration of `types2.Deallocation` is not among the
sources; the fields are the ones written at lines 458-462. -/
structure Deallocation where
  ExternalNetworkName : String := ""
  ExternalNetworkRef : String := ""
  ExternalIPAddress : String := ""
deriving DecidableEq, Repr

/-- Rule slice of the NAT service of a configuration, an absent service counting as
the empty slice. -/
def GatewayFeatures.natRules (c : GatewayFeatures) : List NatRule :=
  match c.NatService with
  | none => []
  | some s => s.NatRule

/-- Rule slice of the firewall service of a configuration, an absent service counting
as the empty slice. -/
def GatewayFeatures.firewallRules (c : GatewayFeatures) : List FirewallRule :=
  match c.FirewallService with
  | none => []
  | some s => s.FirewallRule

/-! ## Uplink lookup (lines 66-71 and 204-209) -/

/-- The loop `for _, gifs := range ... { if gifs.InterfaceType == "uplink" { uplinkif =
gifs.Network.HREF } }`, started with the current value of `uplinkif`. -/
def uplinkLoop : String → List GatewayInterface → Except Fault String
  | uplinkif, [] => .ok uplinkif
  | uplinkif, gifs :: rest =>
    if gifs.InterfaceType = "uplink" then
      match gifs.Network with
      | none => .error .nilDeref
      | some network => uplinkLoop network.HREF rest
    else uplinkLoop uplinkif rest

/-- Lines 66-71 (and 204-209): `var uplinkif string` followed by the loop. -/
def uplinkif (gatewayInterfaces : List GatewayInterface) : Except Fault String :=
  uplinkLoop "" gatewayInterfaces

/-! ## Remove1to1Mapping (lines 73-158) -/

/-- The condition of the first `if` of the NAT loop (lines 88-94), with the
left-to-right short-circuit evaluation of `&&`. -/
def Remove1to1Mapping.isDNAT (internal external uplinkif : String) (v : NatRule) :
    Except Fault Bool :=
  if v.RuleType = "DNAT" then
    match v.GatewayNatRule with
    | none => .error .nilDeref
    | some g =>
      if g.OriginalIP = external ∧ g.TranslatedIP = internal ∧ g.OriginalPort = "any" ∧
          g.TranslatedPort = "any" ∧ g.Protocol = "any" then
        match g.Interface with
        | none => .error .nilDeref
        | some r => .ok (decide (r.HREF = uplinkif))
      else .ok false
  else .ok false

/-- The condition of the second `if` of the NAT loop (lines 100-103). -/
def Remove1to1Mapping.isSNAT (internal external uplinkif : String) (v : NatRule) :
    Except Fault Bool :=
  if v.RuleType = "SNAT" then
    match v.GatewayNatRule with
    | none => .error .nilDeref
    | some g =>
      if g.OriginalIP = internal ∧ g.TranslatedIP = external then
        match g.Interface with
        | none => .error .nilDeref
        | some r => .ok (decide (r.HREF = uplinkif))
      else .ok false
  else .ok false

/-- The NAT loop (lines 84-111): `newnatservice.NatRule` is the accumulator, a rule
that satisfies one of the two conditions is skipped (`continue`), any other rule is
appended. -/
def Remove1to1Mapping.natLoop (internal external uplinkif : String) :
    List NatRule → List NatRule → Except Fault (List NatRule)
  | acc, [] => .ok acc
  | acc, v :: rest =>
    match Remove1to1Mapping.isDNAT internal external uplinkif v with
    | .error f => .error f
    | .ok true => Remove1to1Mapping.natLoop internal external uplinkif acc rest
    | .ok false =>
      match Remove1to1Mapping.isSNAT internal external uplinkif v with
      | .error f => .error f
      | .ok true => Remove1to1Mapping.natLoop internal external uplinkif acc rest
      | .ok false => Remove1to1Mapping.natLoop internal external uplinkif (acc ++ [v]) rest

/-- The condition of the first `if` of the firewall loop (lines 128-133). -/
def Remove1to1Mapping.isInbound (external : String) (v : FirewallRule) : Except Fault Bool :=
  if v.Policy = "allow" then
    match v.Protocols with
    | none => .error .nilDeref
    | some p =>
      .ok (p.Any == true && decide (v.DestinationPortRange = "Any") &&
        decide (v.SourcePortRange = "Any") && decide (v.SourceIP = "Any") &&
        decide (v.DestinationIP = external))
  else .ok false

/-- The condition of the second `if` of the firewall loop (lines 139-144). -/
def Remove1to1Mapping.isOutbound (internal : String) (v : FirewallRule) : Except Fault Bool :=
  if v.Policy = "allow" then
    match v.Protocols with
    | none => .error .nilDeref
    | some p =>
      .ok (p.Any == true && decide (v.DestinationPortRange = "Any") &&
        decide (v.SourcePortRange = "Any") && decide (v.SourceIP = internal) &&
        decide (v.DestinationIP = "Any"))
  else .ok false

/-- The firewall loop (lines 124-152). -/
def Remove1to1Mapping.firewallLoop (internal external : String) :
    List FirewallRule → List FirewallRule → Except Fault (List FirewallRule)
  | acc, [] => .ok acc
  | acc, v :: rest =>
    match Remove1to1Mapping.isInbound external v with
    | .error f => .error f
    | .ok true => Remove1to1Mapping.firewallLoop internal external acc rest
    | .ok false =>
      match Remove1to1Mapping.isOutbound internal v with
      | .error f => .error f
      | .ok true => Remove1to1Mapping.firewallLoop internal external acc rest
      | .ok false => Remove1to1Mapping.firewallLoop internal external (acc ++ [v]) rest

/-- Lines 73-158: the configuration transformation of `Remove1to1Mapping` for a given
uplink reference.  The result is the document handed to `xml.MarshalIndent`. -/
def Remove1to1Mapping.configure (internal external uplinkif : String)
    (newedgeconfig : GatewayFeatures) : Except Fault GatewayFeatures :=
  match newedgeconfig.NatService with
  | none => .error .nilDeref
  | some nat =>
    match Remove1to1Mapping.natLoop internal external uplinkif [] nat.NatRule with
    | .error f => .error f
    | .ok natRule =>
      let newnatservice : NatService :=
        { IsEnabled := nat.IsEnabled, NatType := nat.NatType, Policy := nat.Policy,
          ExternalIP := nat.ExternalIP, NatRule := natRule }
      match newedgeconfig.FirewallService with
      | none => .error .nilDeref
      | some fw =>
        match Remove1to1Mapping.firewallLoop internal external [] fw.FirewallRule with
        | .error f => .error f
        | .ok firewallRule =>
          let newfwservice : FirewallService :=
            { IsEnabled := fw.IsEnabled, DefaultAction := fw.DefaultAction,
              LogDefaultAction := fw.LogDefaultAction, FirewallRule := firewallRule }
          .ok { NatService := some { newnatservice with IsEnabled := true },
                FirewallService := some newfwservice }

/-- Lines 66-158 of `Remove1to1Mapping`, on the refreshed gateway interfaces and service
configuration: the uplink lookup followed by the configuration transformation. -/
def Remove1to1Mapping (gatewayInterfaces : List GatewayInterface)
    (newedgeconfig : GatewayFeatures) (internal external : String) :
    Except Fault GatewayFeatures :=
  match uplinkif gatewayInterfaces with
  | .error f => .error f
  | .ok u => Remove1to1Mapping.configure internal external u newedgeconfig

/-! ## Create1to1Mapping (lines 211-286) -/

/-- The `snat` rule literal of lines 218-230. -/
def Create1to1Mapping.snat (internal external description uplinkif : String) : NatRule :=
  { Description := description, RuleType := "SNAT", IsEnabled := true,
    GatewayNatRule := some
      { Interface := some { HREF := uplinkif },
        OriginalIP := internal, TranslatedIP := external, Protocol := "any" } }

/-- The `dnat` rule literal of lines 234-248. -/
def Create1to1Mapping.dnat (internal external description uplinkif : String) : NatRule :=
  { Description := description, RuleType := "DNAT", IsEnabled := true,
    GatewayNatRule := some
      { Interface := some { HREF := uplinkif },
        OriginalIP := external, OriginalPort := "any", TranslatedIP := internal,
        TranslatedPort := "any", Protocol := "any" } }

/-- The `fwin` rule literal of lines 254-266. -/
def Create1to1Mapping.fwin (external description : String) : FirewallRule :=
  { Description := description, IsEnabled := true, Policy := "allow",
    Protocols := some { Any := true }, DestinationPortRange := "Any",
    DestinationIP := external, SourcePortRange := "Any", SourceIP := "Any",
    EnableLogging := false }

/-- The `fwout` rule literal of lines 272-284. -/
def Create1to1Mapping.fwout (internal description : String) : FirewallRule :=
  { Description := description, IsEnabled := true, Policy := "allow",
    Protocols := some { Any := true }, DestinationPortRange := "Any",
    DestinationIP := "Any", SourcePortRange := "Any", SourceIP := internal,
    EnableLogging := false }

/-- The statement `newedgeconfig.FirewallService.FirewallRule =
append(newedgeconfig.FirewallService.FirewallRule, rule)` (lines 267 and 285). -/
def Create1to1Mapping.appendFirewallRule (newedgeconfig : GatewayFeatures)
    (rule : FirewallRule) : Except Fault GatewayFeatures :=
  match newedgeconfig.FirewallService with
  | none => .error .nilDeref
  | some fw =>
    .ok { newedgeconfig with
          FirewallService := some { fw with FirewallRule := fw.FirewallRule ++ [rule] } }

/-- Lines 211-286: the configuration transformation of `Create1to1Mapping` for a given
uplink reference.  The result is the document handed to `xml.MarshalIndent`. -/
def Create1to1Mapping.configure (internal external description : String)
    (inFirewallAny outFirewallAny : Bool) (uplinkif : String)
    (newedgeconfig : GatewayFeatures) : Except Fault GatewayFeatures :=
  let nat0 : NatService :=
    match newedgeconfig.NatService with
    | none => {}
    | some nat => nat
  let nat1 : NatService :=
    { nat0 with NatRule := nat0.NatRule ++ [Create1to1Mapping.snat internal external description uplinkif] }
  let nat2 : NatService :=
    { nat1 with NatRule := nat1.NatRule ++ [Create1to1Mapping.dnat internal external description uplinkif] }
  let cfg1 : GatewayFeatures := { newedgeconfig with NatService := some nat2 }
  let afterIn : Except Fault GatewayFeatures :=
    if inFirewallAny then
      Create1to1Mapping.appendFirewallRule cfg1 (Create1to1Mapping.fwin external description)
    else .ok cfg1
  match afterIn with
  | .error f => .error f
  | .ok cfg2 =>
    if outFirewallAny then
      Create1to1Mapping.appendFirewallRule cfg2 (Create1to1Mapping.fwout internal description)
    else .ok cfg2

/-- Lines 204-286 of `Create1to1Mapping`, on the refreshed gateway interfaces and
service configuration: the uplink lookup followed by the configuration transformation. -/
def Create1to1Mapping (gatewayInterfaces : List GatewayInterface)
    (newedgeconfig : GatewayFeatures) (internal external description : String)
    (inFirewallAny outFirewallAny : Bool) : Except Fault GatewayFeatures :=
  match uplinkif gatewayInterfaces with
  | .error f => .error f
  | .ok u =>
    Create1to1Mapping.configure internal external description inFirewallAny outFirewallAny u
      newedgeconfig

/-! ## RequestPublicIP and RemovePublicIP (lines 376-396 and 442-462) -/

/-- The loop of lines 379-384 (and 445-450), started with the current value of
`network`: the first interface whose name is `networkname` assigns its `Network`
pointer and ends the loop (`break`). -/
def findNetwork (networkname : String) : Option Reference → List GatewayInterface → Option Reference
  | network, [] => network
  | network, gatewayInterface :: rest =>
    if gatewayInterface.Name = networkname then gatewayInterface.Network
    else findNetwork networkname network rest

/-- Lines 376-396 of `RequestPublicIP`: `network := &types.Reference{}`, the loop, the
`network == nil` test with `log.Fatalf`, and the allocation document. -/
def RequestPublicIP (gatewayInterfaces : List GatewayInterface)
    (networkname publicipcount : String) : Except Fault Allocation :=
  match findNetwork networkname (some {}) gatewayInterfaces with
  | none => .error .fatalExit
  | some network =>
    .ok { ExternalNetworkName := network.Name, ExternalNetworkRef := network.HREF,
          NumberOfExternalIPAddressesToAllocate := publicipcount }

/-- Lines 442-462 of `RemovePublicIP`: the same resolution, then the deallocation
document. -/
def RemovePublicIP (gatewayInterfaces : List GatewayInterface)
    (networkname publicip : String) : Except Fault Deallocation :=
  match findNetwork networkname (some {}) gatewayInterfaces with
  | none => .error .fatalExit
  | some network =>
    .ok { ExternalNetworkName := network.Name, ExternalNetworkRef := network.HREF,
          ExternalIPAddress := publicip }

/-! ## NewEdgeGateway and Refresh (lines 24-56) -/

/-- Modelled from the spec: the declaration of `types.EdgeGateway` is not among the
sources.  `HREF` is the address read at line 37; the gateway interfaces and the service
configuration are the two parts of `Configuration` the source reads. -/
structure types.EdgeGateway where
  HREF : String := ""
  GatewayInterface : List GatewayInterface := []
  EdgeGatewayServiceConfiguration : GatewayFeatures := {}
deriving DecidableEq, Repr

/-- The struct of lines 19-22; the client `c` is passed to `Refresh` separately. -/
structure EdgeGateway where
  EdgeGateway : Option types.EdgeGateway
deriving DecidableEq, Repr

/-- Modelled from the spec: the collaborators of `Refresh` are not among the sources
(the URL parser of the standard library, the transport client with its response
validator, the decoder).  `parse` is the URL parser on a non-empty string (`none` when
it fails), `get` is `checkResp(e.c.Http.Do(req))` for the GET request to a parsed
address, `decodeBody` fills a fresh document from a response and may report an error. -/
structure Client where
  parse : String → Option String
  get : String → Except String String
  decodeBody : String → types.EdgeGateway × Option String

/-- The pointer returned by `url.ParseRequestURI` at line 37 (the error is discarded
there): nil when parsing fails, and the standard library rejects the empty string. -/
def ParseRequestURI (c : Client) (rawurl : String) : Option String :=
  if rawurl = "" then none else c.parse rawurl

/-- Lines 24-29. -/
def NewEdgeGateway : EdgeGateway :=
  { EdgeGateway := some {} }

/-- Lines 31-56.  A run that returns gives the resource after the call and the returned
error (`none` for `nil`); `*u` at line 39 dereferences the parser's pointer. -/
def Refresh (c : Client) (e : EdgeGateway) : Except Fault (EdgeGateway × Option String) :=
  match e.EdgeGateway with
  | none => .ok (e, some "cannot refresh, Object is empty")
  | some doc =>
    match ParseRequestURI c doc.HREF with
    | none => .error .nilDeref
    | some u =>
      match c.get u with
      | .error err => .ok (e, some ("error retreiving Edge Gateway: " ++ err))
      | .ok resp =>
        match c.decodeBody resp with
        | (doc2, some err) =>
          .ok ({ EdgeGateway := some doc2 }, some ("error decoding Edge Gateway response: " ++ err))
        | (doc2, none) => .ok ({ EdgeGateway := some doc2 }, none)

/-! ## The patterns of the specification -/

/-- The DNAT pattern in the words of the specification: a DNAT rule with OriginalIP =
external, TranslatedIP = internal, OriginalPort = TranslatedPort = Protocol = "any" and
interface = the uplink reference. -/
def selfOwnedDNAT (internal external uplink : String) (v : NatRule) : Bool :=
  match v.GatewayNatRule with
  | none => false
  | some g =>
    match g.Interface with
    | none => false
    | some r =>
      decide (v.RuleType = "DNAT" ∧ g.OriginalIP = external ∧ g.TranslatedIP = internal ∧
        g.OriginalPort = "any" ∧ g.TranslatedPort = "any" ∧ g.Protocol = "any" ∧
        r.HREF = uplink)

/-- The SNAT pattern in the words of the specification: an SNAT rule with OriginalIP =
internal, TranslatedIP = external and interface = the uplink reference. -/
def selfOwnedSNAT (internal external uplink : String) (v : NatRule) : Bool :=
  match v.GatewayNatRule with
  | none => false
  | some g =>
    match g.Interface with
    | none => false
    | some r =>
      decide (v.RuleType = "SNAT" ∧ g.OriginalIP = internal ∧ g.TranslatedIP = external ∧
        r.HREF = uplink)

/-- A NAT rule matches one of the two self-owned NAT patterns. -/
def selfOwnedNat (internal external uplink : String) (v : NatRule) : Bool :=
  selfOwnedDNAT internal external uplink v || selfOwnedSNAT internal external uplink v

/-- The inbound firewall pattern in the words of the specification: policy "allow",
protocols Any, both port ranges "Any", SourceIP = "Any" and DestinationIP = external. -/
def selfOwnedInbound (external : String) (v : FirewallRule) : Bool :=
  match v.Protocols with
  | none => false
  | some p =>
    decide (v.Policy = "allow" ∧ p.Any = true ∧ v.DestinationPortRange = "Any" ∧
      v.SourcePortRange = "Any" ∧ v.SourceIP = "Any" ∧ v.DestinationIP = external)

/-- The outbound firewall pattern in the words of the specification: policy "allow",
protocols Any, both port ranges "Any", SourceIP = internal and DestinationIP = "Any". -/
def selfOwnedOutbound (internal : String) (v : FirewallRule) : Bool :=
  match v.Protocols with
  | none => false
  | some p =>
    decide (v.Policy = "allow" ∧ p.Any = true ∧ v.DestinationPortRange = "Any" ∧
      v.SourcePortRange = "Any" ∧ v.SourceIP = internal ∧ v.DestinationIP = "Any")

/-- A firewall rule matches one of the two self-owned firewall patterns. -/
def selfOwnedFirewall (internal external : String) (v : FirewallRule) : Bool :=
  selfOwnedInbound external v || selfOwnedOutbound internal v

/-- The sub-records the NAT loop reads on a rule are present: a rule of type DNAT or
SNAT carries its rule body, and the body carries an interface reference whenever the
fields compared before the interface agree with the pattern of that type. -/
def natReadable (internal external : String) (v : NatRule) : Bool :=
  if v.RuleType = "DNAT" then
    match v.GatewayNatRule with
    | none => false
    | some g =>
      if g.OriginalIP = external ∧ g.TranslatedIP = internal ∧ g.OriginalPort = "any" ∧
          g.TranslatedPort = "any" ∧ g.Protocol = "any" then g.Interface.isSome
      else true
  else if v.RuleType = "SNAT" then
    match v.GatewayNatRule with
    | none => false
    | some g =>
      if g.OriginalIP = internal ∧ g.TranslatedIP = external then g.Interface.isSome
      else true
  else true

/-- The sub-record the firewall loop reads on a rule is present: a rule with policy
"allow" carries its protocols record. -/
def firewallReadable (v : FirewallRule) : Bool :=
  if v.Policy = "allow" then v.Protocols.isSome else true

/-- The last interface tagged "uplink" in a list of gateway interfaces. -/
def lastUplink (gatewayInterfaces : List GatewayInterface) : Option GatewayInterface :=
  (gatewayInterfaces.filter (fun g => decide (g.InterfaceType = "uplink"))).getLast?

/-- The first interface tagged "uplink" in a list of gateway interfaces. -/
def firstUplink (gatewayInterfaces : List GatewayInterface) : Option GatewayInterface :=
  gatewayInterfaces.find? (fun g => decide (g.InterfaceType = "uplink"))

/-! ## The two loops as filters -/

open Remove1to1Mapping

theorem isDNAT_eq (i e u : String) (v : NatRule) (h : natReadable i e v = true) :
    isDNAT i e u v = .ok (selfOwnedDNAT i e u v) := by
  unfold isDNAT selfOwnedDNAT
  unfold natReadable at h
  cases hb : v.GatewayNatRule with
  | none => simp [hb] at h ⊢; tauto
  | some g =>
    cases hi : g.Interface with
    | none =>
      simp [hb, hi] at h ⊢
      by_cases h1 : v.RuleType = "DNAT" <;> simp_all
      tauto
    | some r =>
      simp [hb, hi] at h ⊢
      by_cases h1 : v.RuleType = "DNAT" <;> simp [h1]
      split <;> simp_all

theorem isSNAT_eq (i e u : String) (v : NatRule) (h : natReadable i e v = true) :
    isSNAT i e u v = .ok (selfOwnedSNAT i e u v) := by
  unfold isSNAT selfOwnedSNAT
  unfold natReadable at h
  cases hb : v.GatewayNatRule with
  | none => simp [hb] at h ⊢; tauto
  | some g =>
    cases hi : g.Interface with
    | none =>
      simp [hb, hi] at h ⊢
      by_cases h1 : v.RuleType = "DNAT" <;> simp_all
      by_cases h2 : v.RuleType = "SNAT" <;> simp_all
      tauto
    | some r =>
      simp [hb, hi] at h ⊢
      by_cases h1 : v.RuleType = "SNAT" <;> simp [h1]
      split <;> simp_all

theorem nat_fault (i e u : String) (v : NatRule) (h : natReadable i e v = false) :
    isDNAT i e u v = .error .nilDeref ∨
      (isDNAT i e u v = .ok false ∧ isSNAT i e u v = .error .nilDeref) := by
  unfold isDNAT isSNAT
  unfold natReadable at h
  cases hb : v.GatewayNatRule with
  | none =>
    simp [hb] at h ⊢
    by_cases h1 : v.RuleType = "DNAT" <;> simp_all
  | some g =>
    cases hi : g.Interface with
    | none =>
      simp [hb, hi] at h ⊢
      by_cases h1 : v.RuleType = "DNAT" <;> simp_all
    | some r =>
      simp [hb, hi] at h

theorem isInbound_eq (e : String) (v : FirewallRule) (h : firewallReadable v = true) :
    isInbound e v = .ok (selfOwnedInbound e v) := by
  unfold isInbound selfOwnedInbound
  unfold firewallReadable at h
  cases hp : v.Protocols with
  | none => simp [hp] at h ⊢; simp [h]
  | some p =>
    by_cases h1 : v.Policy = "allow" <;> simp [h1]
    simp only [Bool.and_assoc]

theorem isOutbound_eq (i : String) (v : FirewallRule) (h : firewallReadable v = true) :
    isOutbound i v = .ok (selfOwnedOutbound i v) := by
  unfold isOutbound selfOwnedOutbound
  unfold firewallReadable at h
  cases hp : v.Protocols with
  | none => simp [hp] at h ⊢; simp [h]
  | some p =>
    by_cases h1 : v.Policy = "allow" <;> simp [h1]
    simp only [Bool.and_assoc]

theorem firewall_fault (e : String) (v : FirewallRule) (h : firewallReadable v = false) :
    isInbound e v = .error .nilDeref := by
  unfold isInbound
  unfold firewallReadable at h
  cases hp : v.Protocols with
  | none => simp [hp] at h ⊢; simp [h]
  | some p => simp [hp] at h

theorem natLoop_cons (i e u : String) (acc : List NatRule) (v : NatRule) (rest : List NatRule) :
    natLoop i e u acc (v :: rest) =
      if natReadable i e v = true then
        (if selfOwnedNat i e u v = true then natLoop i e u acc rest
         else natLoop i e u (acc ++ [v]) rest)
      else .error .nilDeref := by
  rw [natLoop]
  cases h : natReadable i e v with
  | true =>
    rw [isDNAT_eq i e u v h, isSNAT_eq i e u v h]
    unfold selfOwnedNat
    cases selfOwnedDNAT i e u v <;> cases selfOwnedSNAT i e u v <;> simp
  | false =>
    rcases nat_fault i e u v h with h1 | ⟨h1, h2⟩
    · simp [h1]
    · simp [h1, h2]

theorem firewallLoop_cons (i e : String) (acc : List FirewallRule) (v : FirewallRule)
    (rest : List FirewallRule) :
    firewallLoop i e acc (v :: rest) =
      if firewallReadable v = true then
        (if selfOwnedFirewall i e v = true then firewallLoop i e acc rest
         else firewallLoop i e (acc ++ [v]) rest)
      else .error .nilDeref := by
  rw [firewallLoop]
  cases h : firewallReadable v with
  | true =>
    rw [isInbound_eq e v h, isOutbound_eq i v h]
    unfold selfOwnedFirewall
    cases selfOwnedInbound e v <;> cases selfOwnedOutbound i v <;> simp
  | false =>
    simp [firewall_fault e v h]

theorem natLoop_eq (i e u : String) (vs acc : List NatRule) :
    natLoop i e u acc vs =
      if vs.all (natReadable i e) = true then
        .ok (acc ++ vs.filter (fun v => !selfOwnedNat i e u v))
      else .error .nilDeref := by
  induction vs generalizing acc with
  | nil => simp [natLoop]
  | cons v rest ih =>
    rw [natLoop_cons]
    cases hr : natReadable i e v <;> cases hs : selfOwnedNat i e u v <;>
      simp [ih, hr, hs, List.filter_cons]

theorem firewallLoop_eq (i e : String) (vs acc : List FirewallRule) :
    firewallLoop i e acc vs =
      if vs.all firewallReadable = true then
        .ok (acc ++ vs.filter (fun v => !selfOwnedFirewall i e v))
      else .error .nilDeref := by
  induction vs generalizing acc with
  | nil => simp [firewallLoop]
  | cons v rest ih =>
    rw [firewallLoop_cons]
    cases hr : firewallReadable v <;> cases hs : selfOwnedFirewall i e v <;>
      simp [ih, hr, hs, List.filter_cons]

theorem all_filter_of_all {α : Type} (p q : α → Bool) (l : List α) (h : l.all p = true) :
    (l.filter q).all p = true := by
  simp only [List.all_eq_true, List.mem_filter] at *
  intro x hx
  exact h x hx.1

theorem filter_not_idem {α : Type} (q : α → Bool) (l : List α) :
    (l.filter q).filter q = l.filter q := by
  simp [List.filter_filter]

/-! ## The filter pass of Remove1to1Mapping -/

/-- C1, counterexample.  On a NAT rule list holding one rule of type DNAT without a rule
body, the NAT loop faults (line 89 dereferences the absent body) although that rule
matches no self-owned pattern and the filter would keep it; likewise the firewall loop
faults on a rule with policy "allow" and no protocols record (line 129). -/
theorem filter_pass_faults_on_absent_subrecord :
    Remove1to1Mapping.natLoop "10.0.0.5" "203.0.113.9" "https://x/uplink1" []
        [{ RuleType := "DNAT" }] = .error .nilDeref ∧
      [({ RuleType := "DNAT" } : NatRule)].filter
        (fun v => !selfOwnedNat "10.0.0.5" "203.0.113.9" "https://x/uplink1" v) =
        [{ RuleType := "DNAT" }] ∧
      Remove1to1Mapping.firewallLoop "10.0.0.5" "203.0.113.9" []
        [{ Policy := "allow" }] = .error .nilDeref ∧
      [({ Policy := "allow" } : FirewallRule)].filter
        (fun v => !selfOwnedFirewall "10.0.0.5" "203.0.113.9" v) = [{ Policy := "allow" }] :=
  ⟨rfl, rfl, rfl, rfl⟩

/-- C1, as amended.  For every internal address, external address, uplink reference, NAT
rule list and firewall rule list: when every rule carries the sub-records the tests
read, each loop of the filter pass returns exactly the input list filtered by the
negation of the self-owned patterns (same rules, same order, rules unaltered); on any
other list the loop faults on the absent sub-record and returns nothing. -/
theorem filter_pass_eq_filter (internal external uplink : String) (nat : List NatRule)
    (fw : List FirewallRule) :
    Remove1to1Mapping.natLoop internal external uplink [] nat =
        (if nat.all (natReadable internal external) = true then
          .ok (nat.filter (fun v => !selfOwnedNat internal external uplink v))
        else .error .nilDeref) ∧
      Remove1to1Mapping.firewallLoop internal external [] fw =
        (if fw.all firewallReadable = true then
          .ok (fw.filter (fun v => !selfOwnedFirewall internal external v))
        else .error .nilDeref) := by
  constructor
  · simpa using natLoop_eq internal external uplink nat []
  · simpa using firewallLoop_eq internal external fw []

/-- C2.  For every service configuration and every internal address, external address and
uplink reference, running the configuration transformation of Remove1to1Mapping on its
own result gives the same outcome (NAT service and firewall service, rule lists and
service-level settings) as running it once; a first run that faults gives no second. -/
theorem remove_twice_eq_once (internal external uplink : String) (c : GatewayFeatures) :
    (Remove1to1Mapping.configure internal external uplink c).bind
        (Remove1to1Mapping.configure internal external uplink) =
      Remove1to1Mapping.configure internal external uplink c := by
  unfold Remove1to1Mapping.configure
  cases hn : c.NatService with
  | none => simp [Except.bind]
  | some nat =>
    cases hf : c.FirewallService with
    | none =>
      simp only [natLoop_eq]
      split <;> simp [Except.bind]
    | some fw =>
      simp only [natLoop_eq, firewallLoop_eq]
      by_cases h1 : nat.NatRule.all (natReadable internal external) = true
      · by_cases h2 : fw.FirewallRule.all firewallReadable = true
        · simp only [h1, h2, if_true, Except.bind, List.nil_append, natLoop_eq, firewallLoop_eq,
            all_filter_of_all _ _ _ h1, all_filter_of_all _ _ _ h2, filter_not_idem]
        · simp [h1, h2, Except.bind]
      · simp [h1, Except.bind]

/-! ## Create1to1Mapping followed by Remove1to1Mapping -/

theorem selfOwnedNat_snat (i e d u : String) :
    selfOwnedNat i e u (Create1to1Mapping.snat i e d u) = true := by
  simp [selfOwnedNat, selfOwnedSNAT, selfOwnedDNAT, Create1to1Mapping.snat]

theorem selfOwnedNat_dnat (i e d u : String) :
    selfOwnedNat i e u (Create1to1Mapping.dnat i e d u) = true := by
  simp [selfOwnedNat, selfOwnedSNAT, selfOwnedDNAT, Create1to1Mapping.dnat]

theorem natReadable_snat (i e d u : String) :
    natReadable i e (Create1to1Mapping.snat i e d u) = true := by
  simp [natReadable, Create1to1Mapping.snat]

theorem natReadable_dnat (i e d u : String) :
    natReadable i e (Create1to1Mapping.dnat i e d u) = true := by
  simp [natReadable, Create1to1Mapping.dnat]

theorem selfOwnedFirewall_fwin (i e d : String) :
    selfOwnedFirewall i e (Create1to1Mapping.fwin e d) = true := by
  simp [selfOwnedFirewall, selfOwnedInbound, Create1to1Mapping.fwin]

theorem selfOwnedFirewall_fwout (i e d : String) :
    selfOwnedFirewall i e (Create1to1Mapping.fwout i d) = true := by
  simp [selfOwnedFirewall, selfOwnedOutbound, Create1to1Mapping.fwout]

theorem firewallReadable_fwin (e d : String) :
    firewallReadable (Create1to1Mapping.fwin e d) = true := by
  simp [firewallReadable, Create1to1Mapping.fwin]

theorem firewallReadable_fwout (i d : String) :
    firewallReadable (Create1to1Mapping.fwout i d) = true := by
  simp [firewallReadable, Create1to1Mapping.fwout]

/-- Create1to1Mapping.configure followed by Remove1to1Mapping.configure, in closed form. -/
theorem create_bind_remove (internal external description : String)
    (inFirewallAny outFirewallAny : Bool) (uplink : String) (c : GatewayFeatures) :
    (Create1to1Mapping.configure internal external description inFirewallAny outFirewallAny
        uplink c).bind (Remove1to1Mapping.configure internal external uplink) =
      match c.FirewallService with
      | none => .error .nilDeref
      | some fw =>
        if (c.natRules.all (natReadable internal external) &&
            fw.FirewallRule.all firewallReadable) = true then
          .ok { NatService := some
                  { IsEnabled := true
                    NatType := (c.NatService.getD {}).NatType
                    Policy := (c.NatService.getD {}).Policy
                    ExternalIP := (c.NatService.getD {}).ExternalIP
                    NatRule := c.natRules.filter
                      (fun v => !selfOwnedNat internal external uplink v) }
                FirewallService := some
                  { IsEnabled := fw.IsEnabled
                    DefaultAction := fw.DefaultAction
                    LogDefaultAction := fw.LogDefaultAction
                    FirewallRule := fw.FirewallRule.filter
                      (fun v => !selfOwnedFirewall internal external v) } }
        else .error .nilDeref := by
  unfold Create1to1Mapping.configure Create1to1Mapping.appendFirewallRule
    Remove1to1Mapping.configure GatewayFeatures.natRules
  cases hf : c.FirewallService with
  | none =>
    cases inFirewallAny <;> cases outFirewallAny <;> cases hn : c.NatService <;>
      simp [Except.bind, natLoop_eq, firewallLoop_eq, natReadable_snat, natReadable_dnat] <;>
      (split_ifs <;> simp)
  | some fw =>
    cases inFirewallAny <;> cases outFirewallAny <;> cases hn : c.NatService <;>
      simp [Except.bind, natLoop_eq, firewallLoop_eq, natReadable_snat, natReadable_dnat,
        selfOwnedNat_snat, selfOwnedNat_dnat, selfOwnedFirewall_fwin, selfOwnedFirewall_fwout,
        firewallReadable_fwin, firewallReadable_fwout, List.filter_append, List.filter_cons] <;>
      split_ifs <;> simp_all


/-! ## Closed forms used below -/

/-- The uplink loop ends with the address of the network of the last interface tagged
"uplink", or with its start value when no interface is tagged. -/
theorem uplinkLoop_eq (gifs : List GatewayInterface) (u0 : String)
    (hall : ∀ g ∈ gifs, g.InterfaceType = "uplink" → g.Network.isSome = true) :
    uplinkLoop u0 gifs =
      .ok (match lastUplink gifs with
        | none => u0
        | some g =>
          match g.Network with
          | none => ""
          | some n => n.HREF) := by
  induction gifs generalizing u0 with
  | nil => simp [uplinkLoop, lastUplink]
  | cons g rest ih =>
    have hrest : ∀ x ∈ rest, x.InterfaceType = "uplink" → x.Network.isSome = true :=
      fun x hx => hall x (List.mem_cons_of_mem _ hx)
    rw [uplinkLoop]
    by_cases hg : g.InterfaceType = "uplink"
    · have hn := hall g (List.mem_cons_self _ _) hg
      cases hnet : g.Network with
      | none => simp [hnet] at hn
      | some n =>
        simp only [hg, if_true]
        rw [ih n.HREF hrest]
        unfold lastUplink
        simp only [List.filter_cons, hg, decide_True, if_true, List.getLast?_cons]
        cases h : (List.filter (fun g => decide (g.InterfaceType = "uplink")) rest).getLast? <;>
          simp [hnet]
    · simp only [hg, if_false]
      rw [ih u0 hrest]
      unfold lastUplink
      simp [List.filter_cons, hg]

/-- Remove1to1Mapping.configure in closed form, on a configuration with both services
present whose rules carry the sub-records the tests read. -/
theorem remove_configure_eq (internal external uplink : String) (nat : NatService)
    (fw : FirewallService)
    (hr : nat.NatRule.all (natReadable internal external) = true)
    (hf : fw.FirewallRule.all firewallReadable = true) :
    Remove1to1Mapping.configure internal external uplink
        { NatService := some nat, FirewallService := some fw } =
      .ok { NatService := some
              { IsEnabled := true, NatType := nat.NatType, Policy := nat.Policy,
                ExternalIP := nat.ExternalIP,
                NatRule := nat.NatRule.filter
                  (fun v => !selfOwnedNat internal external uplink v) }
            FirewallService := some
              { IsEnabled := fw.IsEnabled, DefaultAction := fw.DefaultAction,
                LogDefaultAction := fw.LogDefaultAction,
                FirewallRule := fw.FirewallRule.filter
                  (fun v => !selfOwnedFirewall internal external v) } } := by
  unfold Remove1to1Mapping.configure
  simp only [natLoop_eq, firewallLoop_eq, hr, hf, if_true, List.nil_append]

/-- Filtering out the elements that satisfy a test nothing satisfies changes nothing. -/
theorem filter_eq_self_of_none {α : Type} (q : α → Bool) (l : List α)
    (h : ∀ v ∈ l, q v = false) : l.filter (fun v => !q v) = l := by
  rw [List.filter_eq_self]
  intro v hv
  simp [h v hv]

/-! ## Create1to1Mapping then Remove1to1Mapping: the rule lists -/

/-- C3, counterexample.  The original NAT rule list already holds an SNAT rule for the
same internal/external pair on the uplink (description "set by hand").  After
Create1to1Mapping and Remove1to1Mapping the NAT rule list is empty: the removal step
dropped two SNAT rules and one DNAT rule, and the original list is not restored. -/
theorem create_then_remove_drops_original_rule :
    (Create1to1Mapping.configure "10.0.0.5" "203.0.113.9" "web server" true false
        "https://x/uplink1"
        { NatService := some { NatRule :=
            [Create1to1Mapping.snat "10.0.0.5" "203.0.113.9" "set by hand" "https://x/uplink1"] },
          FirewallService := some {} }).bind
      (Remove1to1Mapping.configure "10.0.0.5" "203.0.113.9" "https://x/uplink1") =
      .ok { NatService := some { IsEnabled := true, NatRule := [] },
            FirewallService := some { FirewallRule := [] } } ∧
    ({ NatService := some { NatRule :=
            [Create1to1Mapping.snat "10.0.0.5" "203.0.113.9" "set by hand" "https://x/uplink1"] },
          FirewallService := some {} } : GatewayFeatures).natRules ≠ [] :=
  ⟨rfl, by simp [GatewayFeatures.natRules]⟩

/-- C3, as amended.  For every service configuration, internal/external pair, description,
pair of firewall flags and uplink reference, Create1to1Mapping followed by
Remove1to1Mapping faults when the firewall service is absent or an original rule lacks a
sub-record the tests read, and otherwise yields the original NAT and firewall rule lists
filtered by the negation of the self-owned patterns: the removal step drops the SNAT and
DNAT rule and the firewall rules that the creation step appended and, with them, every
original rule that matches a self-owned pattern.  The NAT service is enabled and every
other service-level setting is the original one (an absent NAT service counting as an
empty one). -/
theorem create_then_remove (internal external description : String)
    (inFirewallAny outFirewallAny : Bool) (uplink : String) (c : GatewayFeatures) :
    (Create1to1Mapping.configure internal external description inFirewallAny outFirewallAny
        uplink c).bind (Remove1to1Mapping.configure internal external uplink) =
      match c.FirewallService with
      | none => .error .nilDeref
      | some fw =>
        if (c.natRules.all (natReadable internal external) &&
            fw.FirewallRule.all firewallReadable) = true then
          .ok { NatService := some
                  { IsEnabled := true
                    NatType := (c.NatService.getD {}).NatType
                    Policy := (c.NatService.getD {}).Policy
                    ExternalIP := (c.NatService.getD {}).ExternalIP
                    NatRule := c.natRules.filter
                      (fun v => !selfOwnedNat internal external uplink v) }
                FirewallService := some
                  { IsEnabled := fw.IsEnabled
                    DefaultAction := fw.DefaultAction
                    LogDefaultAction := fw.LogDefaultAction
                    FirewallRule := fw.FirewallRule.filter
                      (fun v => !selfOwnedFirewall internal external v) } }
        else .error .nilDeref :=
  create_bind_remove internal external description inFirewallAny outFirewallAny uplink c

/-! ## Create1to1Mapping as an append -/

/-- C4, the code at the failing input.  On the empty configuration (no NAT service, no
firewall service, hence no rules) with flags (true, false), Create1to1Mapping initialises
the absent NAT service at lines 213-216 and appends the SNAT and the DNAT rule, then
faults at line 267 on the absent firewall service, which it does not initialise: no
configuration with one SNAT, one DNAT and one inbound allow-any rule results. -/
theorem create_faults_without_firewall_service :
    Create1to1Mapping.configure "10.0.0.5" "203.0.113.9" "web server" true false
      "https://x/uplink1" {} = .error .nilDeref :=
  rfl

/-- Where the firewall service is present, or both flags are false, Create1to1Mapping
returns a configuration whose NAT rule list is the old list (an absent NAT service
counting as the empty list) followed by exactly the SNAT rule and the DNAT rule, and
whose firewall rule list is the old list followed by the inbound allow-any rule if and
only if inFirewallAny, then the outbound allow-any rule if and only if outFirewallAny. -/
theorem create_appends (internal external description : String)
    (inFirewallAny outFirewallAny : Bool) (uplink : String) (c : GatewayFeatures)
    (h : c.FirewallService.isSome = true ∨ (inFirewallAny = false ∧ outFirewallAny = false)) :
    ∃ c2, Create1to1Mapping.configure internal external description inFirewallAny
          outFirewallAny uplink c = .ok c2 ∧
      c2.natRules = c.natRules ++
        [{ Description := description, RuleType := "SNAT", IsEnabled := true,
           GatewayNatRule := some
             { Interface := some { HREF := uplink, Name := "" }, OriginalIP := internal,
               OriginalPort := "", TranslatedIP := external, TranslatedPort := "",
               Protocol := "any" } },
         { Description := description, RuleType := "DNAT", IsEnabled := true,
           GatewayNatRule := some
             { Interface := some { HREF := uplink, Name := "" }, OriginalIP := external,
               OriginalPort := "any", TranslatedIP := internal, TranslatedPort := "any",
               Protocol := "any" } }] ∧
      c2.firewallRules = c.firewallRules ++
        (if inFirewallAny = true then
          [{ Description := description, IsEnabled := true, Policy := "allow",
             Protocols := some { Any := true }, DestinationPortRange := "Any",
             DestinationIP := external, SourcePortRange := "Any", SourceIP := "Any",
             EnableLogging := false }]
         else []) ++
        (if outFirewallAny = true then
          [{ Description := description, IsEnabled := true, Policy := "allow",
             Protocols := some { Any := true }, DestinationPortRange := "Any",
             DestinationIP := "Any", SourcePortRange := "Any", SourceIP := internal,
             EnableLogging := false }]
         else []) := by
  unfold Create1to1Mapping.configure Create1to1Mapping.appendFirewallRule
  cases hf : c.FirewallService with
  | none =>
    simp [hf] at h
    obtain ⟨h1, h2⟩ := h
    subst h1 h2
    cases hn : c.NatService <;>
      simp [GatewayFeatures.natRules, GatewayFeatures.firewallRules, hf, hn,
        Create1to1Mapping.snat, Create1to1Mapping.dnat]
  | some fw =>
    cases inFirewallAny <;> cases outFirewallAny <;> cases hn : c.NatService <;>
      simp [GatewayFeatures.natRules, GatewayFeatures.firewallRules, hf, hn,
        Create1to1Mapping.snat, Create1to1Mapping.dnat, Create1to1Mapping.fwin,
        Create1to1Mapping.fwout]

/-- The scenario of the specification on a configuration with no rules whose firewall
service is present: flags (true, false) give exactly one SNAT rule, one DNAT rule and
one inbound allow-any rule for destination 203.0.113.9, and no outbound rule. -/
theorem create_appends_scenario :
    (({ NatService := none, FirewallService := some {} } : GatewayFeatures).FirewallService.isSome
        = true ∨ (true = false ∧ false = false)) ∧
    ∃ c2, Create1to1Mapping.configure "10.0.0.5" "203.0.113.9" "web server" true false
          "https://x/uplink1" { NatService := none, FirewallService := some {} } = .ok c2 ∧
      c2.natRules = ({ NatService := none, FirewallService := some {} } : GatewayFeatures).natRules ++
        [{ Description := "web server", RuleType := "SNAT", IsEnabled := true,
           GatewayNatRule := some
             { Interface := some { HREF := "https://x/uplink1", Name := "" },
               OriginalIP := "10.0.0.5",
               OriginalPort := "", TranslatedIP := "203.0.113.9", TranslatedPort := "",
               Protocol := "any" } },
         { Description := "web server", RuleType := "DNAT", IsEnabled := true,
           GatewayNatRule := some
             { Interface := some { HREF := "https://x/uplink1", Name := "" },
               OriginalIP := "203.0.113.9",
               OriginalPort := "any", TranslatedIP := "10.0.0.5", TranslatedPort := "any",
               Protocol := "any" } }] ∧
      c2.firewallRules =
        ({ NatService := none, FirewallService := some {} } : GatewayFeatures).firewallRules ++
        (if true = true then
          [{ Description := "web server", IsEnabled := true, Policy := "allow",
             Protocols := some { Any := true }, DestinationPortRange := "Any",
             DestinationIP := "203.0.113.9", SourcePortRange := "Any", SourceIP := "Any",
             EnableLogging := false }]
         else []) ++
        (if false = true then
          [{ Description := "web server", IsEnabled := true, Policy := "allow",
             Protocols := some { Any := true }, DestinationPortRange := "Any",
             DestinationIP := "Any", SourcePortRange := "Any", SourceIP := "10.0.0.5",
             EnableLogging := false }]
         else []) :=
  ⟨Or.inl rfl,
    create_appends "10.0.0.5" "203.0.113.9" "web server" true false "https://x/uplink1"
      { NatService := none, FirewallService := some {} } (Or.inl rfl)⟩

/-- C10.  For every configuration whose firewall service is absent (the NAT service being
present or not) and every internal, external, description, uplink reference and pair of
flags: when either flag is true the rule-append step of Create1to1Mapping faults on the
absent firewall service, so that no document reaches serialization; when both are false
it completes, with the NAT service initialised if it was absent, the SNAT and DNAT rule
appended and the firewall service still absent. -/
theorem create_without_firewall_service (internal external description : String)
    (inFirewallAny outFirewallAny : Bool) (uplink : String) (nat : Option NatService) :
    Create1to1Mapping.configure internal external description inFirewallAny outFirewallAny
        uplink { NatService := nat, FirewallService := none } =
      if (inFirewallAny || outFirewallAny) = true then .error .nilDeref
      else .ok
        { NatService := some
            { IsEnabled := (nat.getD {}).IsEnabled
              NatType := (nat.getD {}).NatType
              Policy := (nat.getD {}).Policy
              ExternalIP := (nat.getD {}).ExternalIP
              NatRule := (nat.getD {}).NatRule ++
                [Create1to1Mapping.snat internal external description uplink,
                 Create1to1Mapping.dnat internal external description uplink] }
          FirewallService := none } := by
  unfold Create1to1Mapping.configure Create1to1Mapping.appendFirewallRule
  cases inFirewallAny <;> cases outFirewallAny <;> cases nat <;> simp

/-! ## The uplink reference -/

/-- C7, counterexample.  With two interfaces tagged "uplink", the loop ends with the
reference of the second one, the first tagged interface being the one with reference
"https://x/uplink1".  Create1to1Mapping writes "https://x/uplink2" into the interface
field of both new NAT rules, and Remove1to1Mapping keeps the SNAT rule of the pair on
"https://x/uplink1" and drops the one on "https://x/uplink2". -/
theorem uplink_first_vs_last :
    uplinkif
        [{ Name := "net-a", InterfaceType := "uplink",
           Network := some { HREF := "https://x/uplink1" } },
         { Name := "net-b", InterfaceType := "uplink",
           Network := some { HREF := "https://x/uplink2" } }] = .ok "https://x/uplink2" ∧
      firstUplink
        [{ Name := "net-a", InterfaceType := "uplink",
           Network := some { HREF := "https://x/uplink1" } },
         { Name := "net-b", InterfaceType := "uplink",
           Network := some { HREF := "https://x/uplink2" } }] =
        some { Name := "net-a", InterfaceType := "uplink",
               Network := some { HREF := "https://x/uplink1" } } ∧
      (Create1to1Mapping
        [{ Name := "net-a", InterfaceType := "uplink",
           Network := some { HREF := "https://x/uplink1" } },
         { Name := "net-b", InterfaceType := "uplink",
           Network := some { HREF := "https://x/uplink2" } }]
        { NatService := none, FirewallService := some {} }
        "10.0.0.5" "203.0.113.9" "web server" false false).map GatewayFeatures.natRules =
        .ok [{ Description := "web server", RuleType := "SNAT", IsEnabled := true,
               GatewayNatRule := some
                 { Interface := some { HREF := "https://x/uplink2", Name := "" },
                   OriginalIP := "10.0.0.5", OriginalPort := "",
                   TranslatedIP := "203.0.113.9", TranslatedPort := "", Protocol := "any" } },
             { Description := "web server", RuleType := "DNAT", IsEnabled := true,
               GatewayNatRule := some
                 { Interface := some { HREF := "https://x/uplink2", Name := "" },
                   OriginalIP := "203.0.113.9", OriginalPort := "any",
                   TranslatedIP := "10.0.0.5", TranslatedPort := "any",
                   Protocol := "any" } }] ∧
      (Remove1to1Mapping
        [{ Name := "net-a", InterfaceType := "uplink",
           Network := some { HREF := "https://x/uplink1" } },
         { Name := "net-b", InterfaceType := "uplink",
           Network := some { HREF := "https://x/uplink2" } }]
        { NatService := some { NatRule :=
            [{ Description := "on the first", RuleType := "SNAT", IsEnabled := true,
               GatewayNatRule := some
                 { Interface := some { HREF := "https://x/uplink1", Name := "" },
                   OriginalIP := "10.0.0.5", TranslatedIP := "203.0.113.9",
                   Protocol := "any" } },
             { Description := "on the second", RuleType := "SNAT", IsEnabled := true,
               GatewayNatRule := some
                 { Interface := some { HREF := "https://x/uplink2", Name := "" },
                   OriginalIP := "10.0.0.5", TranslatedIP := "203.0.113.9",
                   Protocol := "any" } }] },
          FirewallService := some {} }
        "10.0.0.5" "203.0.113.9").map GatewayFeatures.natRules =
        .ok [{ Description := "on the first", RuleType := "SNAT", IsEnabled := true,
               GatewayNatRule := some
                 { Interface := some { HREF := "https://x/uplink1", Name := "" },
                   OriginalIP := "10.0.0.5", TranslatedIP := "203.0.113.9",
                   Protocol := "any" } }] :=
  ⟨rfl, rfl, rfl, rfl⟩

/-- C7, as amended.  For every list of gateway interfaces in which every interface tagged
"uplink" carries a network reference and at least one interface is tagged "uplink", the
uplink reference is the address of the network of the LAST interface tagged "uplink",
and it is unchanged when every interface not tagged "uplink" is taken out of the list.
On a configuration with both services present, Create1to1Mapping returns the old NAT
rules followed by an SNAT and a DNAT rule whose interface field holds that address; and,
the rules carrying the sub-records the tests read, Remove1to1Mapping returns the NAT
rules filtered by the negation of the self-owned patterns for that address. -/
theorem uplink_is_last_tagged (gifs : List GatewayInterface) (g : GatewayInterface)
    (n : Reference)
    (hall : ∀ x ∈ gifs, x.InterfaceType = "uplink" → x.Network.isSome = true)
    (hlast : lastUplink gifs = some g) (hn : g.Network = some n)
    (internal external description : String) (inFirewallAny outFirewallAny : Bool)
    (nat : NatService) (fw : FirewallService)
    (hr : nat.NatRule.all (natReadable internal external) = true)
    (hf : fw.FirewallRule.all firewallReadable = true) :
    uplinkif gifs = .ok n.HREF ∧
      uplinkif (gifs.filter (fun x => decide (x.InterfaceType = "uplink"))) = .ok n.HREF ∧
      (∃ c2,
        Create1to1Mapping gifs { NatService := some nat, FirewallService := some fw }
            internal external description inFirewallAny outFirewallAny = .ok c2 ∧
        c2.natRules = nat.NatRule ++
          [{ Description := description, RuleType := "SNAT", IsEnabled := true,
             GatewayNatRule := some
               { Interface := some { HREF := n.HREF, Name := "" }, OriginalIP := internal,
                 OriginalPort := "", TranslatedIP := external, TranslatedPort := "",
                 Protocol := "any" } },
           { Description := description, RuleType := "DNAT", IsEnabled := true,
             GatewayNatRule := some
               { Interface := some { HREF := n.HREF, Name := "" }, OriginalIP := external,
                 OriginalPort := "any", TranslatedIP := internal, TranslatedPort := "any",
                 Protocol := "any" } }]) ∧
      (∃ c3,
        Remove1to1Mapping gifs { NatService := some nat, FirewallService := some fw }
            internal external = .ok c3 ∧
        c3.natRules = nat.NatRule.filter
          (fun v => !selfOwnedNat internal external n.HREF v)) := by
  have h1 : uplinkif gifs = .ok n.HREF := by
    unfold uplinkif
    rw [uplinkLoop_eq gifs "" hall, hlast]
    simp [hn]
  have h2 : uplinkif (gifs.filter (fun x => decide (x.InterfaceType = "uplink"))) =
      .ok n.HREF := by
    unfold uplinkif
    rw [uplinkLoop_eq _ "" (fun x hx => hall x (List.mem_filter.mp hx).1)]
    have : lastUplink (gifs.filter (fun x => decide (x.InterfaceType = "uplink"))) = some g := by
      unfold lastUplink at *
      simpa [List.filter_filter] using hlast
    rw [this]
    simp [hn]
  refine ⟨h1, h2, ?_, ?_⟩
  · obtain ⟨c2, hc, hnat, _⟩ :=
      create_appends internal external description inFirewallAny outFirewallAny n.HREF
        { NatService := some nat, FirewallService := some fw } (Or.inl rfl)
    refine ⟨c2, ?_, ?_⟩
    · unfold Create1to1Mapping
      rw [h1]
      exact hc
    · simpa [GatewayFeatures.natRules] using hnat
  · unfold Remove1to1Mapping
    rw [h1]
    simp only [remove_configure_eq internal external n.HREF nat fw hr hf]
    exact ⟨_, rfl, rfl⟩

/-- C7, witness: an uplink, an interface of another type and a second uplink; the NAT
service holds an SNAT rule of the pair on each uplink, and only the one on the second
uplink is self-owned. -/
theorem uplink_is_last_tagged_example :
    (List.filter (fun v => !selfOwnedNat "10.0.0.5" "203.0.113.9" "https://x/uplink2" v)
        [{ Description := "on the first", RuleType := "SNAT", IsEnabled := true,
           GatewayNatRule := some
             { Interface := some { HREF := "https://x/uplink1", Name := "" },
               OriginalIP := "10.0.0.5", TranslatedIP := "203.0.113.9",
               Protocol := "any" } },
         { Description := "on the second", RuleType := "SNAT", IsEnabled := true,
           GatewayNatRule := some
             { Interface := some { HREF := "https://x/uplink2", Name := "" },
               OriginalIP := "10.0.0.5", TranslatedIP := "203.0.113.9",
               Protocol := "any" } }] =
        [{ Description := "on the first", RuleType := "SNAT", IsEnabled := true,
           GatewayNatRule := some
             { Interface := some { HREF := "https://x/uplink1", Name := "" },
               OriginalIP := "10.0.0.5", TranslatedIP := "203.0.113.9",
               Protocol := "any" } }] ∧
      ∀ x ∈ ([{ Name := "net-a", InterfaceType := "uplink",
                Network := some { HREF := "https://x/uplink1" } },
              { Name := "routed", InterfaceType := "internal",
                Network := some { HREF := "https://x/orgnet" } },
              { Name := "net-b", InterfaceType := "uplink",
                Network := some { HREF := "https://x/uplink2" } }] : List GatewayInterface),
        x.InterfaceType = "uplink" → x.Network.isSome = true) ∧
    (uplinkif
        [{ Name := "net-a", InterfaceType := "uplink",
           Network := some { HREF := "https://x/uplink1" } },
         { Name := "routed", InterfaceType := "internal",
           Network := some { HREF := "https://x/orgnet" } },
         { Name := "net-b", InterfaceType := "uplink",
           Network := some { HREF := "https://x/uplink2" } }] = .ok "https://x/uplink2" ∧
      uplinkif
        (List.filter (fun x => decide (x.InterfaceType = "uplink"))
          [{ Name := "net-a", InterfaceType := "uplink",
             Network := some { HREF := "https://x/uplink1" } },
           { Name := "routed", InterfaceType := "internal",
             Network := some { HREF := "https://x/orgnet" } },
           { Name := "net-b", InterfaceType := "uplink",
             Network := some { HREF := "https://x/uplink2" } }]) = .ok "https://x/uplink2" ∧
      (∃ c2,
        Create1to1Mapping
            [{ Name := "net-a", InterfaceType := "uplink",
               Network := some { HREF := "https://x/uplink1" } },
             { Name := "routed", InterfaceType := "internal",
               Network := some { HREF := "https://x/orgnet" } },
             { Name := "net-b", InterfaceType := "uplink",
               Network := some { HREF := "https://x/uplink2" } }]
            { NatService := some { NatRule :=
                [{ Description := "on the first", RuleType := "SNAT", IsEnabled := true,
                   GatewayNatRule := some
                     { Interface := some { HREF := "https://x/uplink1", Name := "" },
                       OriginalIP := "10.0.0.5", TranslatedIP := "203.0.113.9",
                       Protocol := "any" } },
                 { Description := "on the second", RuleType := "SNAT", IsEnabled := true,
                   GatewayNatRule := some
                     { Interface := some { HREF := "https://x/uplink2", Name := "" },
                       OriginalIP := "10.0.0.5", TranslatedIP := "203.0.113.9",
                       Protocol := "any" } }] },
              FirewallService := some {} }
            "10.0.0.5" "203.0.113.9" "web server" true false = .ok c2 ∧
        c2.natRules =
          [{ Description := "on the first", RuleType := "SNAT", IsEnabled := true,
             GatewayNatRule := some
               { Interface := some { HREF := "https://x/uplink1", Name := "" },
                 OriginalIP := "10.0.0.5", TranslatedIP := "203.0.113.9",
                 Protocol := "any" } },
           { Description := "on the second", RuleType := "SNAT", IsEnabled := true,
             GatewayNatRule := some
               { Interface := some { HREF := "https://x/uplink2", Name := "" },
                 OriginalIP := "10.0.0.5", TranslatedIP := "203.0.113.9",
                 Protocol := "any" } }] ++
          [{ Description := "web server", RuleType := "SNAT", IsEnabled := true,
             GatewayNatRule := some
               { Interface := some { HREF := "https://x/uplink2", Name := "" },
                 OriginalIP := "10.0.0.5", OriginalPort := "",
                 TranslatedIP := "203.0.113.9", TranslatedPort := "", Protocol := "any" } },
           { Description := "web server", RuleType := "DNAT", IsEnabled := true,
             GatewayNatRule := some
               { Interface := some { HREF := "https://x/uplink2", Name := "" },
                 OriginalIP := "203.0.113.9", OriginalPort := "any",
                 TranslatedIP := "10.0.0.5", TranslatedPort := "any",
                 Protocol := "any" } }]) ∧
      (∃ c3,
        Remove1to1Mapping
            [{ Name := "net-a", InterfaceType := "uplink",
               Network := some { HREF := "https://x/uplink1" } },
             { Name := "routed", InterfaceType := "internal",
               Network := some { HREF := "https://x/orgnet" } },
             { Name := "net-b", InterfaceType := "uplink",
               Network := some { HREF := "https://x/uplink2" } }]
            { NatService := some { NatRule :=
                [{ Description := "on the first", RuleType := "SNAT", IsEnabled := true,
                   GatewayNatRule := some
                     { Interface := some { HREF := "https://x/uplink1", Name := "" },
                       OriginalIP := "10.0.0.5", TranslatedIP := "203.0.113.9",
                       Protocol := "any" } },
                 { Description := "on the second", RuleType := "SNAT", IsEnabled := true,
                   GatewayNatRule := some
                     { Interface := some { HREF := "https://x/uplink2", Name := "" },
                       OriginalIP := "10.0.0.5", TranslatedIP := "203.0.113.9",
                       Protocol := "any" } }] },
              FirewallService := some {} }
            "10.0.0.5" "203.0.113.9" = .ok c3 ∧
        c3.natRules =
          List.filter (fun v => !selfOwnedNat "10.0.0.5" "203.0.113.9" "https://x/uplink2" v)
            [{ Description := "on the first", RuleType := "SNAT", IsEnabled := true,
               GatewayNatRule := some
                 { Interface := some { HREF := "https://x/uplink1", Name := "" },
                   OriginalIP := "10.0.0.5", TranslatedIP := "203.0.113.9",
                   Protocol := "any" } },
             { Description := "on the second", RuleType := "SNAT", IsEnabled := true,
               GatewayNatRule := some
                 { Interface := some { HREF := "https://x/uplink2", Name := "" },
                   OriginalIP := "10.0.0.5", TranslatedIP := "203.0.113.9",
                   Protocol := "any" } }])) :=
  ⟨⟨rfl, by simp⟩,
    uplink_is_last_tagged
      [{ Name := "net-a", InterfaceType := "uplink",
         Network := some { HREF := "https://x/uplink1" } },
       { Name := "routed", InterfaceType := "internal",
         Network := some { HREF := "https://x/orgnet" } },
       { Name := "net-b", InterfaceType := "uplink",
         Network := some { HREF := "https://x/uplink2" } }]
      { Name := "net-b", InterfaceType := "uplink",
        Network := some { HREF := "https://x/uplink2" } }
      { HREF := "https://x/uplink2" } (by simp) rfl rfl
      "10.0.0.5" "203.0.113.9" "web server" true false
      { NatRule :=
          [{ Description := "on the first", RuleType := "SNAT", IsEnabled := true,
             GatewayNatRule := some
               { Interface := some { HREF := "https://x/uplink1", Name := "" },
                 OriginalIP := "10.0.0.5", TranslatedIP := "203.0.113.9",
                 Protocol := "any" } },
           { Description := "on the second", RuleType := "SNAT", IsEnabled := true,
             GatewayNatRule := some
               { Interface := some { HREF := "https://x/uplink2", Name := "" },
                 OriginalIP := "10.0.0.5", TranslatedIP := "203.0.113.9",
                 Protocol := "any" } }] }
      {} rfl rfl⟩

/-! ## Service-level settings under Remove1to1Mapping -/

/-- C8.  For every service configuration, internal address, external address and uplink
reference, the configuration produced by Remove1to1Mapping has a NAT service and a
firewall service, as the input has; its NAT service is enabled whatever the prior value
of the flag, and the NatType, Policy and ExternalIP of the NAT service and the
IsEnabled, DefaultAction and LogDefaultAction of the firewall service equal their input
values. -/
theorem remove_service_settings (internal external uplink : String)
    (c c2 : GatewayFeatures)
    (h : Remove1to1Mapping.configure internal external uplink c = .ok c2) :
    ∃ nat fw nat2 fw2,
      c.NatService = some nat ∧ c.FirewallService = some fw ∧
      c2.NatService = some nat2 ∧ c2.FirewallService = some fw2 ∧
      nat2.IsEnabled = true ∧ nat2.NatType = nat.NatType ∧ nat2.Policy = nat.Policy ∧
      nat2.ExternalIP = nat.ExternalIP ∧ fw2.IsEnabled = fw.IsEnabled ∧
      fw2.DefaultAction = fw.DefaultAction ∧ fw2.LogDefaultAction = fw.LogDefaultAction := by
  unfold Remove1to1Mapping.configure at h
  cases hn : c.NatService with
  | none => simp [hn] at h
  | some nat =>
    cases hf : c.FirewallService with
    | none =>
      simp only [hn, hf] at h
      split at h <;> simp at h
    | some fw =>
      simp only [hn, hf] at h
      cases hl : Remove1to1Mapping.natLoop internal external uplink [] nat.NatRule with
      | error f => simp [hl] at h
      | ok natRule =>
        cases hl2 : Remove1to1Mapping.firewallLoop internal external [] fw.FirewallRule with
        | error f => simp [hl, hl2] at h
        | ok firewallRule =>
          simp only [hl, hl2, Except.ok.injEq] at h
          subst h
          exact ⟨nat, fw, _, _, rfl, rfl, rfl, rfl, rfl, rfl, rfl, rfl, rfl, rfl, rfl⟩

/-- C8, witness: a disabled NAT service and a firewall service with settings of their
own; the DNAT rule of another mapping and the "drop" rule are kept. -/
theorem remove_service_settings_example :
    Remove1to1Mapping.configure "10.0.0.5" "203.0.113.9" "https://x/uplink1"
        { NatService := some
            { IsEnabled := false, NatType := "ipTranslation", Policy := "allowTraffic",
              ExternalIP := "203.0.113.1",
              NatRule :=
                [Create1to1Mapping.dnat "10.0.0.7" "203.0.113.7" "other" "https://x/uplink1"] },
          FirewallService := some
            { IsEnabled := false, DefaultAction := "drop", LogDefaultAction := true,
              FirewallRule := [{ Policy := "drop" }] } } =
      .ok { NatService := some
              { IsEnabled := true, NatType := "ipTranslation", Policy := "allowTraffic",
                ExternalIP := "203.0.113.1",
                NatRule :=
                  [Create1to1Mapping.dnat "10.0.0.7" "203.0.113.7" "other" "https://x/uplink1"] },
            FirewallService := some
              { IsEnabled := false, DefaultAction := "drop", LogDefaultAction := true,
                FirewallRule := [{ Policy := "drop" }] } } ∧
    ∃ nat fw nat2 fw2,
      ({ NatService := some
            { IsEnabled := false, NatType := "ipTranslation", Policy := "allowTraffic",
              ExternalIP := "203.0.113.1",
              NatRule :=
                [Create1to1Mapping.dnat "10.0.0.7" "203.0.113.7" "other" "https://x/uplink1"] },
          FirewallService := some
            { IsEnabled := false, DefaultAction := "drop", LogDefaultAction := true,
              FirewallRule := [{ Policy := "drop" }] } } : GatewayFeatures).NatService =
        some nat ∧
      ({ NatService := some
            { IsEnabled := false, NatType := "ipTranslation", Policy := "allowTraffic",
              ExternalIP := "203.0.113.1",
              NatRule :=
                [Create1to1Mapping.dnat "10.0.0.7" "203.0.113.7" "other" "https://x/uplink1"] },
          FirewallService := some
            { IsEnabled := false, DefaultAction := "drop", LogDefaultAction := true,
              FirewallRule := [{ Policy := "drop" }] } } : GatewayFeatures).FirewallService =
        some fw ∧
      ({ NatService := some
              { IsEnabled := true, NatType := "ipTranslation", Policy := "allowTraffic",
                ExternalIP := "203.0.113.1",
                NatRule :=
                  [Create1to1Mapping.dnat "10.0.0.7" "203.0.113.7" "other" "https://x/uplink1"] },
            FirewallService := some
              { IsEnabled := false, DefaultAction := "drop", LogDefaultAction := true,
                FirewallRule := [{ Policy := "drop" }] } } : GatewayFeatures).NatService =
        some nat2 ∧
      ({ NatService := some
              { IsEnabled := true, NatType := "ipTranslation", Policy := "allowTraffic",
                ExternalIP := "203.0.113.1",
                NatRule :=
                  [Create1to1Mapping.dnat "10.0.0.7" "203.0.113.7" "other" "https://x/uplink1"] },
            FirewallService := some
              { IsEnabled := false, DefaultAction := "drop", LogDefaultAction := true,
                FirewallRule := [{ Policy := "drop" }] } } : GatewayFeatures).FirewallService =
        some fw2 ∧
      nat2.IsEnabled = true ∧ nat2.NatType = nat.NatType ∧ nat2.Policy = nat.Policy ∧
      nat2.ExternalIP = nat.ExternalIP ∧ fw2.IsEnabled = fw.IsEnabled ∧
      fw2.DefaultAction = fw.DefaultAction ∧ fw2.LogDefaultAction = fw.LogDefaultAction :=
  ⟨rfl,
    remove_service_settings "10.0.0.5" "203.0.113.9" "https://x/uplink1"
      { NatService := some
          { IsEnabled := false, NatType := "ipTranslation", Policy := "allowTraffic",
            ExternalIP := "203.0.113.1",
            NatRule :=
              [Create1to1Mapping.dnat "10.0.0.7" "203.0.113.7" "other" "https://x/uplink1"] },
        FirewallService := some
          { IsEnabled := false, DefaultAction := "drop", LogDefaultAction := true,
            FirewallRule := [{ Policy := "drop" }] } }
      { NatService := some
          { IsEnabled := true, NatType := "ipTranslation", Policy := "allowTraffic",
            ExternalIP := "203.0.113.1",
            NatRule :=
              [Create1to1Mapping.dnat "10.0.0.7" "203.0.113.7" "other" "https://x/uplink1"] },
        FirewallService := some
          { IsEnabled := false, DefaultAction := "drop", LogDefaultAction := true,
            FirewallRule := [{ Policy := "drop" }] } }
      rfl⟩

/-! ## The conditional round trip -/

/-- C9, counterexample.  Both services are present and the only rule, a firewall rule with
policy "allow" and no protocols record, matches no self-owned pattern; Create1to1Mapping
followed by Remove1to1Mapping faults at line 129 and yields no rule list. -/
theorem round_trip_faults_on_absent_protocols :
    (Create1to1Mapping.configure "10.0.0.5" "203.0.113.9" "web server" true true
        "https://x/uplink1"
        { NatService := some {},
          FirewallService := some { FirewallRule := [{ Policy := "allow" }] } }).bind
      (Remove1to1Mapping.configure "10.0.0.5" "203.0.113.9" "https://x/uplink1") =
      .error .nilDeref ∧
    selfOwnedFirewall "10.0.0.5" "203.0.113.9" { Policy := "allow" } = false :=
  ⟨rfl, rfl⟩

/-- C9, as amended.  For every service configuration with a NAT service and a firewall
service present whose rules carry the sub-records the tests read and match no self-owned
pattern for (internal, external, uplink), and for every description and every choice of
the two flags, Create1to1Mapping followed by Remove1to1Mapping with the same internal,
external and uplink yields NAT and firewall rule lists equal to the original ones, in
the original order. -/
theorem create_then_remove_restores (internal external description : String)
    (inFirewallAny outFirewallAny : Bool) (uplink : String) (nat : NatService)
    (fw : FirewallService)
    (hr : ∀ v ∈ nat.NatRule, natReadable internal external v = true ∧
      selfOwnedNat internal external uplink v = false)
    (hf : ∀ v ∈ fw.FirewallRule, firewallReadable v = true ∧
      selfOwnedFirewall internal external v = false) :
    ∃ c2,
      (Create1to1Mapping.configure internal external description inFirewallAny outFirewallAny
          uplink { NatService := some nat, FirewallService := some fw }).bind
        (Remove1to1Mapping.configure internal external uplink) = .ok c2 ∧
      c2.natRules = nat.NatRule ∧ c2.firewallRules = fw.FirewallRule := by
  have h1 : nat.NatRule.all (natReadable internal external) = true := by
    simp only [List.all_eq_true]
    exact fun v hv => (hr v hv).1
  have h2 : fw.FirewallRule.all firewallReadable = true := by
    simp only [List.all_eq_true]
    exact fun v hv => (hf v hv).1
  rw [create_bind_remove]
  simp only [GatewayFeatures.natRules, h1, h2, Bool.and_self, if_true]
  refine ⟨_, rfl, ?_, ?_⟩
  · exact filter_eq_self_of_none _ _ (fun v hv => (hr v hv).2)
  · exact filter_eq_self_of_none _ _ (fun v hv => (hf v hv).2)

/-- C9, witness: a DNAT rule of another mapping and a firewall rule with policy "drop". -/
theorem create_then_remove_restores_example :
    ((∀ v ∈ ({ NatRule :=
          [Create1to1Mapping.dnat "10.0.0.7" "203.0.113.7" "other" "https://x/uplink1"] }
          : NatService).NatRule,
        natReadable "10.0.0.5" "203.0.113.9" v = true ∧
          selfOwnedNat "10.0.0.5" "203.0.113.9" "https://x/uplink1" v = false) ∧
      (∀ v ∈ ({ FirewallRule := [{ Policy := "drop" }] } : FirewallService).FirewallRule,
        firewallReadable v = true ∧ selfOwnedFirewall "10.0.0.5" "203.0.113.9" v = false)) ∧
    ∃ c2,
      (Create1to1Mapping.configure "10.0.0.5" "203.0.113.9" "web server" true true
          "https://x/uplink1"
          { NatService := some { NatRule :=
              [Create1to1Mapping.dnat "10.0.0.7" "203.0.113.7" "other" "https://x/uplink1"] },
            FirewallService := some { FirewallRule := [{ Policy := "drop" }] } }).bind
        (Remove1to1Mapping.configure "10.0.0.5" "203.0.113.9" "https://x/uplink1") = .ok c2 ∧
      c2.natRules =
        [Create1to1Mapping.dnat "10.0.0.7" "203.0.113.7" "other" "https://x/uplink1"] ∧
      c2.firewallRules = [{ Policy := "drop" }] :=
  ⟨⟨by simp [natReadable, selfOwnedNat, selfOwnedDNAT, selfOwnedSNAT, Create1to1Mapping.dnat],
      by simp [firewallReadable, selfOwnedFirewall, selfOwnedInbound, selfOwnedOutbound]⟩,
    create_then_remove_restores "10.0.0.5" "203.0.113.9" "web server" true true
      "https://x/uplink1"
      { NatRule := [Create1to1Mapping.dnat "10.0.0.7" "203.0.113.7" "other" "https://x/uplink1"] }
      { FirewallRule := [{ Policy := "drop" }] }
      (by simp [natReadable, selfOwnedNat, selfOwnedDNAT, selfOwnedSNAT, Create1to1Mapping.dnat])
      (by simp [firewallReadable, selfOwnedFirewall, selfOwnedInbound, selfOwnedOutbound])⟩

/-! ## Network resolution of RequestPublicIP and RemovePublicIP -/

/-- C5, the code at the failing input.  The gateway has one interface, named "d2p3-ext";
for the network name "internet" the resolution step keeps the empty reference `network`
was initialised with, the `network == nil` test does not fire, and both operations go
on to build a document whose external network name and reference are empty. -/
theorem public_ip_unknown_network_builds_empty_document :
    RequestPublicIP
        [{ Name := "d2p3-ext", InterfaceType := "uplink",
           Network := some { HREF := "https://x/uplink1", Name := "d2p3-ext" } }]
        "internet" "2" =
      .ok { ExternalNetworkName := "", ExternalNetworkRef := "",
            NumberOfExternalIPAddressesToAllocate := "2" } ∧
    RemovePublicIP
        [{ Name := "d2p3-ext", InterfaceType := "uplink",
           Network := some { HREF := "https://x/uplink1", Name := "d2p3-ext" } }]
        "internet" "203.0.113.9" =
      .ok { ExternalNetworkName := "", ExternalNetworkRef := "",
            ExternalIPAddress := "203.0.113.9" } :=
  ⟨rfl, rfl⟩

/-! ## Refresh -/

/-- C6, the code at the failing input.  On a resource just built by NewEdgeGateway (the
HREF is the empty string) Refresh faults, whatever the client: the URL parser returns
nil for the empty string, its error is discarded, and line 39 dereferences the
pointer. -/
theorem refresh_faults_on_empty_href (c : Client) :
    Refresh c NewEdgeGateway = .error .nilDeref := by
  simp [Refresh, NewEdgeGateway, ParseRequestURI]

end Govcloudair
